import Mathlib

/-!
# Verification of the openmun-opendata reference-data library

Shallow embedding of the repository's data model and operations:

* `countries.py` — the country lookup API over the generated BFS country table
  (`generated/bfs/country_codes.py`);
* `geo/base.py` — the fetch-or-fallback orchestration and the geodata error taxonomy;
* `geo/municipalities.py` — the canton-enrichment hierarchy walk;
* `geo/models/postal_codes.py` — the postal locality record model and its
  construction-time validation;
* `geo/models/municipalities.py` — the multi-format date parsing validator;
* `importers/bfs_country_importer.py` — the country-code importer's control flow.

Python strings are modelled as Lean `String`s (or `List Char` where symbolic
character-level reasoning is needed); Python `None`-able values as `Option`;
exceptions as explicit error results.
-/

namespace OpenMun

/-- The value part of one `COUNTRY_CODES` entry: `bfs_code`, `iso3`, and the four
localized names (`names['de'|'fr'|'it'|'en']`). -/
structure CountryData where
  bfs_code : String
  iso3 : String
  name_de : String
  name_fr : String
  name_it : String
  name_en : String
deriving DecidableEq

set_option maxHeartbeats 2000000 in
/-- The bundled country reference-data asset `COUNTRY_CODES` from
`generated/bfs/country_codes.py`: ISO alpha-2 code mapped to BFS code, ISO alpha-3
code and the four localized names, in the file order of the generated module
(alphabetically sorted by ISO2 at generation time). -/
def countryCodes : List (String × CountryData) := [
  ("AD", CountryData.mk "8202" "AND" "Andorra" "Andorre" "Andorra" "Andorra"),
  ("AE", CountryData.mk "8532" "ARE" "Vereinigte Arabische Emirate" "Emirats arabes unis" "Emirati arabi uniti" "United Arab Emirates"),
  ("AF", CountryData.mk "8501" "AFG" "Afghanistan" "Afghanistan" "Afghanistan" "Afghanistan"),
  ("AG", CountryData.mk "8442" "ATG" "Antigua und Barbuda" "Antigua-et-Barbuda" "Antigua e Barbuda" "Antigua and Barbuda"),
  ("AI", CountryData.mk "8446" "AIA" "Anguilla" "Anguilla" "Anguilla" "Anguilla"),
  ("AL", CountryData.mk "8201" "ALB" "Albanien" "Albanie" "Albania" "Albania"),
  ("AM", CountryData.mk "8560" "ARM" "Armenien" "Arménie" "Armenia" "Armenia"),
  ("AO", CountryData.mk "8305" "AGO" "Angola" "Angola" "Angola" "Angola"),
  ("AQ", CountryData.mk "8701" "ATA" "Antarktis" "Antarctique" "Antartide" "Antarctica"),
  ("AR", CountryData.mk "8401" "ARG" "Argentinien" "Argentine" "Argentina" "Argentina"),
  ("AS", CountryData.mk "8621" "ASM" "Amerikanisch-Samoa" "Samoa américaines" "Samoa americane" "American Samoa"),
  ("AT", CountryData.mk "8229" "AUT" "Österreich" "Autriche" "Austria" "Austria"),
  ("AU", CountryData.mk "8601" "AUS" "Australien" "Australie" "Australia" "Australia"),
  ("AW", CountryData.mk "8482" "ABW" "Aruba" "Aruba" "Aruba" "Aruba"),
  ("AX", CountryData.mk "8274" "ALA" "Alandinseln" "Îles d\x27Aland" "Isole di Aland" "Aland Islands"),
  ("AZ", CountryData.mk "8561" "AZE" "Aserbaidschan" "Azerbaïdjan" "Azerbaigian" "Azerbaijan"),
  ("BA", CountryData.mk "8252" "BIH" "Bosnien und Herzegowina" "Bosnie et Herzégovine" "Bosnia e Erzegovina" "Bosnia and Herzegovina"),
  ("BB", CountryData.mk "8403" "BRB" "Barbados" "Barbade" "Barbados" "Barbados"),
  ("BD", CountryData.mk "8546" "BGD" "Bangladesch" "Bangladesh" "Bangladesh" "Bangladesh"),
  ("BE", CountryData.mk "8204" "BEL" "Belgien" "Belgique" "Belgio" "Belgium"),
  ("BF", CountryData.mk "8337" "BFA" "Burkina Faso" "Burkina Faso" "Burkina Faso" "Burkina Faso"),
  ("BG", CountryData.mk "8205" "BGR" "Bulgarien" "Bulgarie" "Bulgaria" "Bulgaria"),
  ("BH", CountryData.mk "8502" "BHR" "Bahrain" "Bahreïn" "Bahrein" "Bahrain"),
  ("BI", CountryData.mk "8308" "BDI" "Burundi" "Burundi" "Burundi" "Burundi"),
  ("BJ", CountryData.mk "8309" "BEN" "Benin" "Bénin" "Benin" "Benin"),
  ("BL", CountryData.mk "8449" "BLM" "Saint-Barthélemy" "Saint-Barthélemy" "Saint-Barthélemy" "Saint Barthélemy"),
  ("BM", CountryData.mk "8404" "BMU" "Bermuda" "Bermudes" "Bermuda" "Bermuda"),
  ("BN", CountryData.mk "8504" "BRN" "Brunei Darussalam" "Brunéi Darussalam" "Brunei Darussalam" "Brunei"),
  ("BO", CountryData.mk "8405" "BOL" "Bolivien" "Bolivie" "Bolivia" "Bolivia"),
  ("BQ", CountryData.mk "8486" "BES" "Bonaire, Saint Eustatius und Saba" "Bonaire, Saint Eustatius et Saba" "Bonaire, Saint Eustatius e Saba" "Bonaire, Saint Eustatius and Saba"),
  ("BR", CountryData.mk "8406" "BRA" "Brasilien" "Brésil" "Brasile" "Brazil"),
  ("BS", CountryData.mk "8402" "BHS" "Bahamas" "Bahamas" "Bahamas" "Bahamas"),
  ("BT", CountryData.mk "8503" "BTN" "Bhutan" "Bhoutan" "Bhutan" "Bhutan"),
  ("BV", CountryData.mk "8702" "BVT" "Bouvetinsel" "Île Bouvet" "Isola Bouvet" "Bouvet Island"),
  ("BW", CountryData.mk "8307" "BWA" "Botsuana" "Botswana" "Botswana" "Botswana"),
  ("BY", CountryData.mk "8266" "BLR" "Belarus" "Bélarus" "Belarus" "Belarus"),
  ("BZ", CountryData.mk "8419" "BLZ" "Belize" "Belize" "Belize" "Belize"),
  ("CA", CountryData.mk "8423" "CAN" "Kanada" "Canada" "Canada" "Canada"),
  ("CC", CountryData.mk "8652" "CCK" "Kokosinseln" "Îles Cocos (Keeling)" "Isole Cocos" "Cocos (Keeling) Islands"),
  ("CD", CountryData.mk "8323" "COD" "Kongo (Kinshasa)" "Congo (Kinshasa)" "Congo (Kinshasa)" "Congo (Kinshasa)"),
  ("CF", CountryData.mk "8360" "CAF" "Zentralafrikanische Republik" "République centrafricaine" "Repubblica centrafricana" "Central African Republic"),
  ("CG", CountryData.mk "8322" "COG" "Kongo (Brazzaville)" "Congo (Brazzaville)" "Congo (Brazzaville)" "Congo (Brazzaville)"),
  ("CH", CountryData.mk "8100" "CHE" "Schweiz" "Suisse" "Svizzera" "Switzerland"),
  ("CI", CountryData.mk "8310" "CIV" "Côte d\x27Ivoire" "Côte d\x27Ivoire" "Côte d\x27Ivoire" "Côte d\x27Ivoire"),
  ("CK", CountryData.mk "8682" "COK" "Cookinseln" "Îles Cook" "Isole Cook" "Cook Islands"),
  ("CL", CountryData.mk "8407" "CHL" "Chile" "Chili" "Cile" "Chile"),
  ("CM", CountryData.mk "8317" "CMR" "Kamerun" "Cameroun" "Camerun" "Cameroon"),
  ("CN", CountryData.mk "8508" "CHN" "China" "Chine" "Cina" "China"),
  ("CO", CountryData.mk "8424" "COL" "Kolumbien" "Colombie" "Colombia" "Colombia"),
  ("CR", CountryData.mk "8408" "CRI" "Costa Rica" "Costa Rica" "Costa Rica" "Costa Rica"),
  ("CU", CountryData.mk "8425" "CUB" "Kuba" "Cuba" "Cuba" "Cuba"),
  ("CV", CountryData.mk "8319" "CPV" "Cabo Verde" "Cabo Verde" "Cabo Verde" "Cabo Verde"),
  ("CW", CountryData.mk "8484" "CUW" "Curaçao" "Curaçao" "Curaçao" "Curaçao"),
  ("CX", CountryData.mk "8655" "CXR" "Weihnachtsinsel" "Île Christmas (Australie)" "Isola Christmas" "Christmas Island"),
  ("CY", CountryData.mk "8242" "CYP" "Zypern" "Chypre" "Cipro" "Cyprus"),
  ("CZ", CountryData.mk "8244" "CZE" "Tschechien" "Tchéquie" "Cechia" "Czechia"),
  ("DE", CountryData.mk "8207" "DEU" "Deutschland" "Allemagne" "Germania" "Germany"),
  ("DJ", CountryData.mk "8303" "DJI" "Dschibuti" "Djibouti" "Gibuti" "Djibouti"),
  ("DK", CountryData.mk "8206" "DNK" "Dänemark" "Danemark" "Danimarca" "Denmark"),
  ("DM", CountryData.mk "8440" "DMA" "Dominica" "Dominique" "Dominica" "Dominica"),
  ("DO", CountryData.mk "8409" "DOM" "Dominikanische Republik" "République dominicaine" "Repubblica dominicana" "Dominican Republic"),
  ("DZ", CountryData.mk "8304" "DZA" "Algerien" "Algérie" "Algeria" "Algeria"),
  ("EC", CountryData.mk "8410" "ECU" "Ecuador" "Équateur" "Ecuador" "Ecuador"),
  ("EE", CountryData.mk "8260" "EST" "Estland" "Estonie" "Estonia" "Estonia"),
  ("EG", CountryData.mk "8359" "EGY" "Ägypten" "Égypte" "Egitto" "Egypt"),
  ("EH", CountryData.mk "8372" "ESH" "Westsahara" "Sahara Occidental" "Sahara Occidentale" "Western Sahara"),
  ("ER", CountryData.mk "8362" "ERI" "Eritrea" "Érythrée" "Eritrea" "Eritrea"),
  ("ES", CountryData.mk "8236" "ESP" "Spanien" "Espagne" "Spagna" "Spain"),
  ("ET", CountryData.mk "8302" "ETH" "Äthiopien" "Éthiopie" "Etiopia" "Ethiopia"),
  ("FI", CountryData.mk "8211" "FIN" "Finnland" "Finlande" "Finlandia" "Finland"),
  ("FJ", CountryData.mk "8602" "FJI" "Fidschi" "Fidji" "Figi" "Fiji"),
  ("FK", CountryData.mk "8412" "FLK" "Falklandinseln" "Îles Falkland" "Isole Falkland" "Falkland Islands"),
  ("FM", CountryData.mk "8618" "FSM" "Mikronesien" "Micronésie" "Micronesia" "Micronesia"),
  ("FO", CountryData.mk "8210" "FRO" "Färöer" "Îles Féroé" "Isole Faer Oer" "Faeroe Islands"),
  ("FR", CountryData.mk "8212" "FRA" "Frankreich" "France" "Francia" "France"),
  ("GA", CountryData.mk "8311" "GAB" "Gabun" "Gabon" "Gabon" "Gabon"),
  ("GB", CountryData.mk "8215" "GBR" "Vereinigtes Königreich" "Royaume-Uni" "Regno Unito" "United Kingdom"),
  ("GD", CountryData.mk "8441" "GRD" "Grenada" "Grenade" "Grenada" "Grenada"),
  ("GE", CountryData.mk "8562" "GEO" "Georgien" "Géorgie" "Georgia" "Georgia"),
  ("GF", CountryData.mk "8416" "GUF" "Französisch-Guayana" "Guyane Française" "Guiana Francese" "French Guyana"),
  ("GG", CountryData.mk "8272" "GGY" "Guernsey" "Guernesey" "Guernsey" "Guernsey"),
  ("GH", CountryData.mk "8313" "GHA" "Ghana" "Ghana" "Ghana" "Ghana"),
  ("GI", CountryData.mk "8213" "GIB" "Gibraltar" "Gibraltar" "Gibilterra" "Gibraltar"),
  ("GL", CountryData.mk "8413" "GRL" "Grönland" "Groenland" "Groenlandia" "Greenland"),
  ("GM", CountryData.mk "8312" "GMB" "Gambia" "Gambie" "Gambia" "Gambia"),
  ("GN", CountryData.mk "8315" "GIN" "Guinea" "Guinée" "Guinea" "Guinea"),
  ("GP", CountryData.mk "8414" "GLP" "Guadeloupe" "Guadeloupe" "Guadalupa" "Guadeloupe"),
  ("GQ", CountryData.mk "8301" "GNQ" "Äquatorialguinea" "Guinée équatoriale" "Guinea equatoriale" "Equatorial Guinea"),
  ("GR", CountryData.mk "8214" "GRC" "Griechenland" "Grèce" "Grecia" "Greece"),
  ("GS", CountryData.mk "8483" "SGS" "Südgeorgien und Südliche Sandwichinseln" "Géorgie du Sud et Îles Sandwich du Sud" "Isole Georgia del Sud e Sandwich del Sud" "South Georgia and the South Sandwich Islands"),
  ("GT", CountryData.mk "8415" "GTM" "Guatemala" "Guatemala" "Guatemala" "Guatemala"),
  ("GU", CountryData.mk "8632" "GUM" "Guam" "Guam" "Guam" "Guam"),
  ("GW", CountryData.mk "8314" "GNB" "Guinea-Bissau" "Guinée-Bissau" "Guinea-Bissau" "Guinea-Bissau"),
  ("GY", CountryData.mk "8417" "GUY" "Guyana" "Guyana" "Guyana" "Guyana"),
  ("HK", CountryData.mk "8509" "HKG" "Hongkong" "Hong Kong" "Hong Kong" "Hong Kong"),
  ("HM", CountryData.mk "8653" "HMD" "Heard und McDonaldinseln" "Îles-Heard-et-McDonald" "Isole Heard e McDonald" "Heard Island and McDonald Islands"),
  ("HN", CountryData.mk "8420" "HND" "Honduras" "Honduras" "Honduras" "Honduras"),
  ("HR", CountryData.mk "8250" "HRV" "Kroatien" "Croatie" "Croazia" "Croatia"),
  ("HT", CountryData.mk "8418" "HTI" "Haiti" "Haïti" "Haiti" "Haiti"),
  ("HU", CountryData.mk "8240" "HUN" "Ungarn" "Hongrie" "Ungheria" "Hungary"),
  ("ID", CountryData.mk "8511" "IDN" "Indonesien" "Indonésie" "Indonesia" "Indonesia"),
  ("IE", CountryData.mk "8216" "IRL" "Irland" "Irlande" "Irlanda" "Ireland"),
  ("IL", CountryData.mk "8514" "ISR" "Israel" "Israël" "Israele" "Israel"),
  ("IM", CountryData.mk "8225" "IMN" "Insel Man" "Île de Man" "Isola di Man" "Isle of Man"),
  ("IN", CountryData.mk "8510" "IND" "Indien" "Inde" "India" "India"),
  ("IO", CountryData.mk "8371" "IOT" "Britische Territorien im Indischen Ozean" "Territoires britanniques dans l\x27océan indien" "Territori britannici nell\x27oceano indiano" "British Territories in the Indian Ocean"),
  ("IQ", CountryData.mk "8512" "IRQ" "Irak" "Irak" "Iraq" "Iraq"),
  ("IR", CountryData.mk "8513" "IRN" "Iran" "Iran" "Iran" "Iran"),
  ("IS", CountryData.mk "8217" "ISL" "Island" "Islande" "Islanda" "Iceland"),
  ("IT", CountryData.mk "8218" "ITA" "Italien" "Italie" "Italia" "Italy"),
  ("JE", CountryData.mk "8271" "JEY" "Jersey" "Jersey" "Jersey" "Jersey"),
  ("JM", CountryData.mk "8421" "JAM" "Jamaika" "Jamaïque" "Giamaica" "Jamaica"),
  ("JO", CountryData.mk "8517" "JOR" "Jordanien" "Jordanie" "Giordania" "Jordan"),
  ("JP", CountryData.mk "8515" "JPN" "Japan" "Japon" "Giappone" "Japan"),
  ("KE", CountryData.mk "8320" "KEN" "Kenia" "Kenya" "Kenia" "Kenya"),
  ("KG", CountryData.mk "8564" "KGZ" "Kirgisistan" "Kirghizistan" "Kirghizistan" "Kyrgyzstan"),
  ("KH", CountryData.mk "8518" "KHM" "Kambodscha" "Cambodge" "Cambogia" "Cambodia"),
  ("KI", CountryData.mk "8616" "KIR" "Kiribati" "Kiribati" "Kiribati" "Kiribati"),
  ("KM", CountryData.mk "8321" "COM" "Komoren" "Comores" "Comore" "Comoros"),
  ("KN", CountryData.mk "8445" "KNA" "St. Kitts und Nevis" "Saint-Kitts-et-Nevis" "Saint Kitts e Nevis" "Saint Kitts and Nevis"),
  ("KP", CountryData.mk "8530" "PRK" "Korea (Nord-)" "Corée (Nord)" "Corea (Nord)" "North Korea"),
  ("KR", CountryData.mk "8539" "KOR" "Korea (Süd-)" "Corée (Sud)" "Corea (Sud)" "South Korea"),
  ("KW", CountryData.mk "8521" "KWT" "Kuwait" "Koweït" "Kuwait" "Kuwait"),
  ("KY", CountryData.mk "8473" "CYM" "Kaimaninseln" "Îles Cayman" "Isole Cayman" "Cayman Islands"),
  ("KZ", CountryData.mk "8563" "KAZ" "Kasachstan" "Kazakhstan" "Kazakstan" "Kazakhstan"),
  ("LA", CountryData.mk "8522" "LAO" "Laos" "Laos" "Laos" "Laos"),
  ("LB", CountryData.mk "8523" "LBN" "Libanon" "Liban" "Libano" "Lebanon"),
  ("LC", CountryData.mk "8443" "LCA" "St. Lucia" "Sainte-Lucie" "Saint Lucia" "Saint Lucia"),
  ("LI", CountryData.mk "8222" "LIE" "Liechtenstein" "Liechtenstein" "Liechtenstein" "Liechtenstein"),
  ("LK", CountryData.mk "8506" "LKA" "Sri Lanka" "Sri Lanka" "Sri Lanka" "Sri Lanka"),
  ("LR", CountryData.mk "8325" "LBR" "Liberia" "Libéria" "Liberia" "Liberia"),
  ("LS", CountryData.mk "8324" "LSO" "Lesotho" "Lesotho" "Lesotho" "Lesotho"),
  ("LT", CountryData.mk "8262" "LTU" "Litauen" "Lituanie" "Lituania" "Lithuania"),
  ("LU", CountryData.mk "8223" "LUX" "Luxemburg" "Luxembourg" "Lussemburgo" "Luxembourg"),
  ("LV", CountryData.mk "8261" "LVA" "Lettland" "Lettonie" "Lettonia" "Latvia"),
  ("LY", CountryData.mk "8326" "LBY" "Libyen" "Libye" "Libia" "Libya"),
  ("MA", CountryData.mk "8331" "MAR" "Marokko" "Maroc" "Marocco" "Morocco"),
  ("MC", CountryData.mk "8226" "MCO" "Monaco" "Monaco" "Monaco" "Monaco"),
  ("MD", CountryData.mk "8263" "MDA" "Moldova" "Moldova" "Moldova" "Moldova"),
  ("ME", CountryData.mk "8254" "MNE" "Montenegro" "Monténégro" "Montenegro" "Montenegro"),
  ("MF", CountryData.mk "8448" "MAF" "Saint-Martin (Frankreich)" "Saint-Martin (France)" "Saint-Martin (Francia)" "Saint Martin (France)"),
  ("MG", CountryData.mk "8327" "MDG" "Madagaskar" "Madagascar" "Madagascar" "Madagascar"),
  ("MH", CountryData.mk "8617" "MHL" "Marshallinseln" "Îles Marshall" "Isole Marshall" "Marshall Islands"),
  ("MK", CountryData.mk "8255" "MKD" "Mazedonien" "Macédoine" "Macedonia" "Macedonia"),
  ("ML", CountryData.mk "8330" "MLI" "Mali" "Mali" "Mali" "Mali"),
  ("MM", CountryData.mk "8505" "MMR" "Myanmar" "Myanmar" "Myanmar" "Myanmar"),
  ("MN", CountryData.mk "8528" "MNG" "Mongolei" "Mongolie" "Mongolia" "Mongolia"),
  ("MO", CountryData.mk "8524" "MAC" "Macao" "Macao" "Macao" "Macao"),
  ("MP", CountryData.mk "8630" "MNP" "Nördliche Marianen" "Mariannes du Nord" "Marianne del Nord" "Northern Marianas"),
  ("MQ", CountryData.mk "8426" "MTQ" "Martinique" "Martinique" "Martinica" "Martinique"),
  ("MR", CountryData.mk "8332" "MRT" "Mauretanien" "Mauritanie" "Mauritania" "Mauritania"),
  ("MS", CountryData.mk "8475" "MSR" "Montserrat" "Montserrat" "Monserrat" "Montserrat"),
  ("MT", CountryData.mk "8224" "MLT" "Malta" "Malte" "Malta" "Malta"),
  ("MU", CountryData.mk "8333" "MUS" "Mauritius" "Maurice" "Maurizio" "Mauritius"),
  ("MV", CountryData.mk "8526" "MDV" "Malediven" "Maldives" "Maldive" "Maldives"),
  ("MW", CountryData.mk "8329" "MWI" "Malawi" "Malawi" "Malawi" "Malawi"),
  ("MX", CountryData.mk "8427" "MEX" "Mexiko" "Mexique" "Messico" "Mexico"),
  ("MY", CountryData.mk "8525" "MYS" "Malaysia" "Malaisie" "Malaysia" "Malaysia"),
  ("MZ", CountryData.mk "8334" "MOZ" "Mosambik" "Mozambique" "Mozambico" "Mozambique"),
  ("NA", CountryData.mk "8351" "NAM" "Namibia" "Namibie" "Namibia" "Namibia"),
  ("NC", CountryData.mk "8606" "NCL" "Neukaledonien" "Nouvelle-Calédonie" "Nuova Caledonia" "New Caledonia"),
  ("NE", CountryData.mk "8335" "NER" "Niger" "Niger" "Niger" "Niger"),
  ("NF", CountryData.mk "8654" "NFK" "Norfolkinsel" "Île Norfolk" "Isola Norfolk" "Norfolk Island"),
  ("NG", CountryData.mk "8336" "NGA" "Nigeria" "Nigéria" "Nigeria" "Nigeria"),
  ("NI", CountryData.mk "8429" "NIC" "Nicaragua" "Nicaragua" "Nicaragua" "Nicaragua"),
  ("NL", CountryData.mk "8227" "NLD" "Niederlande" "Pays-Bas" "Paesi Bassi" "Netherlands"),
  ("NO", CountryData.mk "8228" "NOR" "Norwegen" "Norvège" "Norvegia" "Norway"),
  ("NP", CountryData.mk "8529" "NPL" "Nepal" "Népal" "Nepal" "Nepal"),
  ("NR", CountryData.mk "8604" "NRU" "Nauru" "Nauru" "Nauru" "Nauru"),
  ("NU", CountryData.mk "8683" "NIU" "Niue" "Nioué" "Niue" "Niue"),
  ("NZ", CountryData.mk "8607" "NZL" "Neuseeland" "Nouvelle-Zélande" "Nuova Zelanda" "New Zealand"),
  ("OM", CountryData.mk "8527" "OMN" "Oman" "Oman" "Oman" "Oman"),
  ("PA", CountryData.mk "8430" "PAN" "Panama" "Panama" "Panama" "Panama"),
  ("PE", CountryData.mk "8432" "PER" "Peru" "Pérou" "Perù" "Peru"),
  ("PF", CountryData.mk "8671" "PYF" "Französisch-Polynesien" "Polynésie française" "Polinesia francese" "French Polynesia"),
  ("PG", CountryData.mk "8608" "PNG" "Papua-Neuguinea" "Papouasie-Nouvelle-Guinée" "Papua Nuova Guinea" "Papua New Guinea"),
  ("PH", CountryData.mk "8534" "PHL" "Philippinen" "Philippines" "Filippine" "Philippines"),
  ("PK", CountryData.mk "8533" "PAK" "Pakistan" "Pakistan" "Pakistan" "Pakistan"),
  ("PL", CountryData.mk "8230" "POL" "Polen" "Pologne" "Polonia" "Poland"),
  ("PM", CountryData.mk "8434" "SPM" "St. Pierre und Miquelon" "Saint-Pierre-et-Miquelon" "Saint-Pierre e Miquelon" "Saint Pierre and Miquelon"),
  ("PN", CountryData.mk "8685" "PCN" "Pitcairninseln" "Îles Pitcairn" "Isole Pitcairn" "Pitcairn Islands"),
  ("PR", CountryData.mk "8433" "PRI" "Puerto Rico" "Porto Rico" "Portorico" "Puerto Rico"),
  ("PS", CountryData.mk "8550" "PSE" "Palästina" "Palestine" "Palestina" "Palestine"),
  ("PT", CountryData.mk "8231" "PRT" "Portugal" "Portugal" "Portogallo" "Portugal"),
  ("PW", CountryData.mk "8619" "PLW" "Palau" "Palaos" "Palau" "Palau"),
  ("PY", CountryData.mk "8431" "PRY" "Paraguay" "Paraguay" "Paraguay" "Paraguay"),
  ("QA", CountryData.mk "8519" "QAT" "Katar" "Qatar" "Qatar" "Qatar"),
  ("RE", CountryData.mk "8339" "REU" "Reunion" "Réunion" "Riunione" "Réunion"),
  ("RO", CountryData.mk "8232" "ROU" "Rumänien" "Roumanie" "Romania" "Romania"),
  ("RS", CountryData.mk "8248" "SRB" "Serbien" "Serbie" "Serbia" "Serbia"),
  ("RU", CountryData.mk "8264" "RUS" "Russland" "Russie" "Russia" "Russia"),
  ("RW", CountryData.mk "8341" "RWA" "Ruanda" "Rwanda" "Ruanda" "Rwanda"),
  ("SA", CountryData.mk "8535" "SAU" "Saudi-Arabien" "Arabie saoudite" "Arabia Saudita" "Saudi Arabia"),
  ("SB", CountryData.mk "8614" "SLB" "Salomoninseln" "Îles Salomon" "Isole Salomone" "Solomon Islands"),
  ("SC", CountryData.mk "8346" "SYC" "Seychellen" "Seychelles" "Seicelle" "Seychelles"),
  ("SD", CountryData.mk "8350" "SDN" "Sudan" "Soudan" "Sudan" "Sudan"),
  ("SE", CountryData.mk "8234" "SWE" "Schweden" "Suède" "Svezia" "Sweden"),
  ("SG", CountryData.mk "8537" "SGP" "Singapur" "Singapour" "Singapore" "Singapore"),
  ("SH", CountryData.mk "8375" "SHN" "Tristan da Cunha" "Tristan da Cunha" "Tristan da Cunha" "Tristan da Cunha"),
  ("SI", CountryData.mk "8251" "SVN" "Slowenien" "Slovénie" "Slovenia" "Slovenia"),
  ("SJ", CountryData.mk "8273" "SJM" "Svalbard und Jan Mayen" "Svalbard et Île Jan Mayen" "Svalbard e Jan Mayen" "Svalbard and Jan Mayen"),
  ("SK", CountryData.mk "8243" "SVK" "Slowakei" "Slovaquie" "Slovacchia" "Slovakia"),
  ("SL", CountryData.mk "8347" "SLE" "Sierra Leone" "Sierra Leone" "Sierra Leone" "Sierra Leone"),
  ("SM", CountryData.mk "8233" "SMR" "San Marino" "Saint-Marin" "San Marino" "San Marino"),
  ("SN", CountryData.mk "8345" "SEN" "Senegal" "Sénégal" "Senegal" "Senegal"),
  ("SO", CountryData.mk "8348" "SOM" "Somalia" "Somalie" "Somalia" "Somalia"),
  ("SR", CountryData.mk "8435" "SUR" "Suriname" "Suriname" "Suriname" "Suriname"),
  ("SS", CountryData.mk "8363" "SSD" "Südsudan" "Soudan du Sud" "Sudan del Sud" "South Sudan"),
  ("ST", CountryData.mk "8344" "STP" "São Tomé und Príncipe" "Sao Tomé-et-Principe" "São Tomé e Príncipe" "São Tomé and Príncipe"),
  ("SV", CountryData.mk "8411" "SLV" "El Salvador" "El Salvador" "El Salvador" "El Salvador"),
  ("SX", CountryData.mk "8485" "SXM" "Sint Maarten (Niederlande)" "Sint Maarten (Pays-Bas)" "Sint Maarten (Paesi Bassi)" "Sint Maarten (Netherlands)"),
  ("SY", CountryData.mk "8541" "SYR" "Syrien" "Syrie" "Siria" "Syria"),
  ("SZ", CountryData.mk "8352" "SWZ" "Swasiland" "Swaziland" "Swaziland" "Swaziland"),
  ("TC", CountryData.mk "8474" "TCA" "Turks- und Caicosinseln" "Îles Turques et Caïques" "Isole Turks e Caicos" "Turks and Caicos Islands"),
  ("TD", CountryData.mk "8356" "TCD" "Tschad" "Tchad" "Ciad" "Chad"),
  ("TF", CountryData.mk "8703" "ATF" "Französische Süd- und Antarktisgebiete" "Terres australes et antarctiques françaises" "Territori delle terre australi e antartiche francesi" "French Southern and Antarctic Lands"),
  ("TG", CountryData.mk "8354" "TGO" "Togo" "Togo" "Togo" "Togo"),
  ("TH", CountryData.mk "8542" "THA" "Thailand" "Thaïlande" "Thailandia" "Thailand"),
  ("TJ", CountryData.mk "8565" "TJK" "Tadschikistan" "Tadjikistan" "Tagikistan" "Tajikistan"),
  ("TK", CountryData.mk "8684" "TKL" "Tokelau" "Tokélau" "Tokelau" "Tokelau"),
  ("TL", CountryData.mk "8547" "TLS" "Timor-Leste" "Timor-Leste" "Timor-Leste" "Timor-Leste"),
  ("TM", CountryData.mk "8566" "TKM" "Turkmenistan" "Turkménistan" "Turkmenistan" "Turkmenistan"),
  ("TN", CountryData.mk "8357" "TUN" "Tunesien" "Tunisie" "Tunisia" "Tunisia"),
  ("TO", CountryData.mk "8610" "TON" "Tonga" "Tonga" "Tonga" "Tonga"),
  ("TR", CountryData.mk "8239" "TUR" "Türkei" "Turquie" "Turchia" "Turkey"),
  ("TT", CountryData.mk "8436" "TTO" "Trinidad und Tobago" "Trinité-et-Tobago" "Trinidad e Tobago" "Trinidad and Tobago"),
  ("TV", CountryData.mk "8615" "TUV" "Tuvalu" "Tuvalu" "Tuvalu" "Tuvalu"),
  ("TW", CountryData.mk "8507" "TWN" "Taiwan (Chinesisches Taipei)" "Taïwan (Taipei chinois)" "Taiwan (Taipei cinese)" "Taiwan (Chinese Taipei)"),
  ("TZ", CountryData.mk "8353" "TZA" "Tansania" "Tanzanie" "Tanzania" "Tanzania"),
  ("UA", CountryData.mk "8265" "UKR" "Ukraine" "Ukraine" "Ucraina" "Ukraine"),
  ("UG", CountryData.mk "8358" "UGA" "Uganda" "Ouganda" "Uganda" "Uganda"),
  ("UM", CountryData.mk "8636" "UMI" "Wakeinsel" "Île Wake" "Isola Wake" "Wake Island"),
  ("US", CountryData.mk "8439" "USA" "Vereinigte Staaten" "États-Unis" "Stati Uniti" "United States"),
  ("UY", CountryData.mk "8437" "URY" "Uruguay" "Uruguay" "Uruguay" "Uruguay"),
  ("UZ", CountryData.mk "8567" "UZB" "Usbekistan" "Ouzbékistan" "Uzbekistan" "Uzbekistan"),
  ("VA", CountryData.mk "8241" "VAT" "Vatikanstadt" "Cité du Vatican" "Città del Vaticano" "Vatican City"),
  ("VC", CountryData.mk "8444" "VCT" "St. Vincent und die Grenadinen" "Saint-Vincent-et-les Grenadines" "Saint Vincent e Grenadine" "Saint Vincent and the Grenadines"),
  ("VE", CountryData.mk "8438" "VEN" "Venezuela" "Venezuela" "Venezuela" "Venezuela"),
  ("VG", CountryData.mk "8476" "VGB" "Jungferninseln (UK)" "Îles Vierges britanniques" "Isole Vergini britanniche" "British Virgin Islands"),
  ("VI", CountryData.mk "8472" "VIR" "Jungferninseln (USA)" "Îles Vierges américaines" "Isole Vergini americane" "US Virgin Islands"),
  ("VN", CountryData.mk "8545" "VNM" "Vietnam" "Vietnam" "Vietnam" "Vietnam"),
  ("VU", CountryData.mk "8605" "VUT" "Vanuatu" "Vanuatu" "Vanuatu" "Vanuatu"),
  ("WF", CountryData.mk "8611" "WLF" "Wallis und Futuna" "Wallis-et-Futuna" "Wallis e Futuna" "Wallis and Futuna"),
  ("WS", CountryData.mk "8612" "WSM" "Samoa" "Samoa" "Samoa" "Samoa"),
  ("YE", CountryData.mk "8516" "YEM" "Jemen" "Yémen" "Yemen" "Yemen"),
  ("YT", CountryData.mk "8361" "MYT" "Mayotte" "Mayotte" "Mayotte" "Mayotte"),
  ("ZA", CountryData.mk "8349" "ZAF" "Südafrika" "Afrique du Sud" "Sudafrica" "South Africa"),
  ("ZM", CountryData.mk "8343" "ZMB" "Sambia" "Zambie" "Zambia" "Zambia"),
  ("ZW", CountryData.mk "8340" "ZWE" "Simbabwe" "Zimbabwe" "Zimbabwe" "Zimbabwe")
]

/-- The `Country` dataclass of `openmun_opendata/countries.py`. -/
structure Country where
  iso2 : String
  bfs_code : String
  iso3 : String
  name_de : String
  name_fr : String
  name_it : String
  name_en : String
deriving DecidableEq

/-- Model of Python `str.upper()` restricted to ASCII (the inputs in scope are
ISO codes and canton codes): map `a`–`z` to `A`–`Z`, leave other characters. -/
def pyUpper (s : String) : String := ⟨s.data.map Char.toUpper⟩

/-- Lexicographic comparison of character lists by code point, as Python compares
strings. -/
def charListLt : List Char → List Char → Bool
  | [], [] => false
  | [], _ :: _ => true
  | _ :: _, [] => false
  | a :: as, b :: bs =>
    if a.toNat < b.toNat then true
    else if b.toNat < a.toNat then false
    else charListLt as bs

/-- Python `<=` on strings: lexicographic by code point. -/
def pyStrLe (a b : String) : Bool := !(charListLt b.data a.data)

/-- Insert into an ascending list, before the first element that is `>=` the new one
(the placement a stable sort gives an element relative to an already-sorted suffix). -/
def sortedInsert (x : String) : List String → List String
  | [] => [x]
  | y :: ys => if pyStrLe x y then x :: y :: ys else y :: sortedInsert x ys

/-- Model of Python `sorted` on strings: a stable ascending sort (insertion sort;
stability fixes the output uniquely, so any correct model agrees with CPython). -/
def pySorted : List String → List String
  | [] => []
  | x :: xs => sortedInsert x (pySorted xs)

/-- `get_country(iso_code)` from `countries.py`: upper-case the input, look it up in
`COUNTRY_CODES` (a dict keyed by ISO2, modelled as association-list lookup), and build
a `Country` from the entry. -/
def get_country (iso_code : String) : Option Country :=
  match (countryCodes.lookup (pyUpper iso_code)) with
  | some data =>
      some { iso2 := pyUpper iso_code, bfs_code := data.bfs_code, iso3 := data.iso3,
             name_de := data.name_de, name_fr := data.name_fr,
             name_it := data.name_it, name_en := data.name_en }
  | none => none

/-- `get_all_countries()` from `countries.py`: sort the dict keys ascending
(Python `sorted`, lexicographic on code points) and collect `get_country` of each,
dropping misses. -/
def get_all_countries : List Country :=
  (pySorted (countryCodes.map Prod.fst)).filterMap get_country

/-- Model of Python `str.lower()` restricted to ASCII: map `A`–`Z` to `a`–`z`. -/
def pyLower (s : String) : String := ⟨s.data.map Char.toLower⟩

/-- Does `pat` occur at the head of `text`? -/
def headMatch : List Char → List Char → Bool
  | [], _ => true
  | _ :: _, [] => false
  | a :: as, b :: bs => a == b && headMatch as bs

/-- Does `pat` occur contiguously anywhere in `text`? -/
def containsSub (pat : List Char) : List Char → Bool
  | [] => pat.isEmpty
  | c :: rest => headMatch pat (c :: rest) || containsSub pat rest

/-- Python `needle in haystack` on strings: contiguous substring containment. -/
def pyInStr (needle haystack : String) : Bool := containsSub needle.data haystack.data

/-- Method `Country.get_name(language)` from `countries.py`: the dict
`{'de': name_de, 'fr': name_fr, 'it': name_it, 'en': name_en}.get(language, name_de)` —
an unknown language falls back to the German name. -/
def Country.get_name (c : Country) (language : String) : String :=
  if language = "de" then c.name_de
  else if language = "fr" then c.name_fr
  else if language = "it" then c.name_it
  else if language = "en" then c.name_en
  else c.name_de

/-- `search_countries(query, language='de')` from `countries.py`: lower-case the query and
keep every country whose `get_name(language)`, lower-cased, contains it as a substring. -/
def search_countries (query : String) (language : String) : List Country :=
  let queryLower := pyLower query
  get_all_countries.filter (fun c => pyInStr queryLower (pyLower (c.get_name language)))

/-- Bool check that a list of strings is strictly ascending in Python's string order. -/
def strictAscStr : List String → Bool
  | [] => true
  | [_] => true
  | a :: b :: r => charListLt a.data b.data && strictAscStr (b :: r)

/-! ## Character-list helpers modelling Python string builtins

For the claims that need symbolic character-level reasoning (date parsing, canton-code
normalization) Python strings are modelled as `List Char`. -/

/-- The whitespace characters Python `str.strip()` removes (the ASCII ones; the inputs
in scope are CSV fields and codes). -/
def pyIsSpace (c : Char) : Bool :=
  c == ' ' || c == '\t' || c == '\n' || c == '\r' || c == '\x0b' || c == '\x0c'

/-- Model of Python `str.strip()`: drop leading whitespace with `dropWhile`, then drop
trailing whitespace with a right fold that discards characters while the accumulated
suffix is still empty. -/
def pyStrip (l : List Char) : List Char :=
  (l.dropWhile pyIsSpace).foldr
    (fun c acc => if pyIsSpace c && acc.isEmpty then [] else c :: acc) []

/-- Model of Python `str.split(sep)` for a one-character separator: splitting never
yields an empty list (splitting the empty string gives one empty part). -/
def pySplit (sep : Char) : List Char → List (List Char)
  | [] => [[]]
  | c :: rest =>
    let r := pySplit sep rest
    if c == sep then [] :: r else (c :: r.headD []) :: r.tail

/-- Python `ch in s` membership of a single character. -/
def hasChar (sep : Char) (l : List Char) : Bool := l.any (fun c => c == sep)

/-- Numeric value of a decimal digit character. -/
def digitVal (c : Char) : Nat := c.toNat - 48

/-- Are all characters decimal digits? -/
def allDigits (l : List Char) : Bool := l.all Char.isDigit

/-- Decimal value of a digit string. -/
def digitsToNat (l : List Char) : Nat := l.foldl (fun a c => a * 10 + digitVal c) 0

/-- Model of Python `int(s)` on a base-10 string: strip whitespace, accept an optional
sign followed by at least one decimal digit (`ValueError` is `none`; underscore digit
grouping is not modelled — no input in scope uses it). -/
def pyInt (s : List Char) : Option Int :=
  match pyStrip s with
  | [] => none
  | c :: rest =>
    if c == '-' then
      if rest ≠ [] ∧ allDigits rest then some (-(digitsToNat rest : Int)) else none
    else if c == '+' then
      if rest ≠ [] ∧ allDigits rest then some ((digitsToNat rest : Nat) : Int) else none
    else
      if allDigits (c :: rest) then some ((digitsToNat (c :: rest) : Nat) : Int)
      else none

/-- The decimal digit characters, used to quantify over digit positions of a date
string. -/
def digitChars : List Char := "0123456789".data

/-- The ASCII letter characters, used to quantify over the letters of a canton code. -/
def asciiLetters : List Char :=
  "ABCDEFGHIJKLMNOPQRSTUVWXYZabcdefghijklmnopqrstuvwxyz".data

/-! ## Dates: `datetime.date` and `MunicipalityV1.parse_date` -/

/-- A Python `datetime.date` value. -/
structure PyDate where
  year : Int
  month : Int
  day : Int
deriving DecidableEq

/-- Gregorian leap-year rule, as `datetime` uses. -/
def isLeapYear (y : Int) : Bool := (y % 4 == 0 && y % 100 != 0) || y % 400 == 0

/-- Number of days of a month, as `datetime` uses. -/
def daysInMonth (y m : Int) : Int :=
  if m == 2 then (if isLeapYear y then 29 else 28)
  else if m == 4 || m == 6 || m == 9 || m == 11 then 30
  else 31

/-- The `datetime.date(year, month, day)` constructor: `ValueError` on out-of-range
components is `none`. -/
def mkPyDate (y m d : Int) : Option PyDate :=
  if 1 ≤ y ∧ y ≤ 9999 ∧ 1 ≤ m ∧ m ≤ 12 ∧ 1 ≤ d ∧ d ≤ daysInMonth y m then
    some (PyDate.mk y m d)
  else none

/-- The `MunicipalityV1.parse_date` validator of `geo/models/municipalities.py` on a
string input: empty or whitespace-only input is absent; if the stripped value contains
`-` and splits into exactly three parts, a first part of at most two characters is tried
as `DD-MM-YYYY` and a longer one as `YYYY-MM-DD` (a failed attempt falls through); then
a value containing `.` is tried as `DD.MM.YYYY` via the parts at indices 2, 1, 0 (a
missing index, an `int()` failure or an invalid date each fall through); anything left
over is absent, never an error. -/
def parse_date (v : List Char) : Option PyDate :=
  if v = [] then none
  else
    let t := pyStrip v
    if t = [] then none
    else
      let dashResult : Option PyDate :=
        if hasChar '-' t && (pySplit '-' t).length == 3 then
          match pySplit '-' t with
          | [p0, p1, p2] =>
            if p0.length ≤ 2 then
              match pyInt p0, pyInt p1, pyInt p2 with
              | some d, some m, some y => mkPyDate y m d
              | _, _, _ => none
            else
              match pyInt p0, pyInt p1, pyInt p2 with
              | some y, some m, some d => mkPyDate y m d
              | _, _, _ => none
          | _ => none
        else none
      match dashResult with
      | some d => some d
      | none =>
        if hasChar '.' t then
          let parts := pySplit '.' t
          match parts[2]?, parts[1]?, parts[0]? with
          | some p2, some p1, some p0 =>
            match pyInt p2, pyInt p1, pyInt p0 with
            | some y, some m, some d => mkPyDate y m d
            | _, _, _ => none
          | _, _, _ => none
        else none

/-! ## Geo API framework: error taxonomy and fetch-or-fallback (`geo/base.py`) -/

/-- The geodata error taxonomy of `geo/base.py`: `GeoAPIError` is the base kind,
`RemoteFetchError` a failed remote operation, `NoFallbackDataError` the terminal
"no data can be produced" kind. Each carries its message. -/
inductive GeoError
  | geoAPIError (msg : String)
  | remoteFetchError (msg : String)
  | noFallbackDataError (msg : String)
deriving DecidableEq

/-- Outcome of `_fetch_or_fallback`: the returned value or raised error, paired with
whether the fallback function was invoked along the way. -/
structure FetchOutcome (α : Type) where
  result : Except GeoError α
  fallbackInvoked : Bool

/-- Method `BaseGeoAPI._fetch_or_fallback(fetch_func, fallback_func, error_context)` of
`geo/base.py`. The remote attempt is modelled by its outcome (`Except.error msg` when it
raises `RemoteFetchError(msg)`), likewise the fallback attempt (`Except.error` when it
raises `NoFallbackDataError` — the kind the framework's fallback readers raise and the
only kind the handler catches). `self.fallback_allowed` is the first argument. The
error messages are composed exactly as the two f-strings in the source. -/
def fetchOrFallback {α : Type} (fallbackAllowed : Bool) (fetchResult : Except String α)
    (fallbackResult : Except String α) (errorContext : String) : FetchOutcome α :=
  match fetchResult with
  | .ok v => FetchOutcome.mk (.ok v) false
  | .error e =>
    if !fallbackAllowed then
      FetchOutcome.mk (.error (.noFallbackDataError
        ("Failed to fetch " ++ errorContext ++
         " from remote API and fallback not allowed. " ++
         "Use fallback_allowed=True to use cached data. Error: " ++ e))) false
    else
      match fallbackResult with
      | .ok v => FetchOutcome.mk (.ok v) true
      | .error _ =>
        FetchOutcome.mk (.error (.noFallbackDataError
          ("Failed to fetch " ++ errorContext ++
           " from remote API and no fallback data available. " ++
           "Original error: " ++ e))) true

/-! ## Municipality records and canton enrichment (`geo/municipalities.py`) -/

/-- The `MunicipalityV1` record of `geo/models/municipalities.py` (pydantic model,
frozen): optional fields are `None`-able, the two validity bounds are parsed dates. -/
structure MunicipalityV1 where
  historical_code : String
  bfs_code : Option String
  name : String
  short_name : Option String
  canton_code : Option String
  canton_name : Option String
  level : Option Int
  parent : Option String
  valid_from : Option PyDate
  valid_to : Option PyDate
  rec_type : Option String
deriving DecidableEq

/-- The dict `by_historical_code` built by `_enrich_with_cantons`: record keyed by
`historical_code`; a Python dict comprehension keeps the last record for a duplicated
key, hence the lookup searches from the end. -/
def byHistoricalCode (ms : List MunicipalityV1) (code : String) :
    Option MunicipalityV1 :=
  ms.reverse.find? (fun m => m.historical_code == code)

/-- The parent-chain `while` loop of `_enrich_with_cantons`, walking `current` up the
hierarchy: stop with the canton's `(short_name, name)` at a level-1 parent, stop empty
on a missing parent reference or a record without `parent`, and give up once
`max_depth = 5` is exhausted (`fuel` is `max_depth - depth`). -/
def cantonWalk (lookup : String → Option MunicipalityV1) :
    Nat → MunicipalityV1 → Option (Option String × String)
  | 0, _ => none
  | fuel + 1, current =>
    match current.parent with
    | none => none
    | some parentCode =>
      match lookup parentCode with
      | none => none
      | some parent =>
        if parent.level = some 1 then some (parent.short_name, parent.name)
        else cantonWalk lookup fuel parent

/-- The per-record body of the enrichment loop in `_enrich_with_cantons`: a level-1
record adopts its own `short_name`/`name`; a record with a `parent` takes the walk's
result; anything else keeps both canton fields absent. The enriched record is a copy
with only the two canton fields updated (`model_copy(update=...)`, which does not
re-validate). -/
def enrichOne (lookup : String → Option MunicipalityV1) (m : MunicipalityV1) :
    MunicipalityV1 :=
  let cc : Option String × Option String :=
    if m.level = some 1 then (m.short_name, some m.name)
    else
      match m.parent with
      | some _ =>
        match cantonWalk lookup 5 m with
        | some (code, name) => (code, some name)
        | none => (none, none)
      | none => (none, none)
  { m with canton_code := cc.1, canton_name := cc.2 }

/-- Method `MunicipalitiesAPI._enrich_with_cantons(municipalities)`: build the
historical-code lookup over the snapshot and enrich every record. -/
def enrich_with_cantons (ms : List MunicipalityV1) : List MunicipalityV1 :=
  ms.map (enrichOne (byHistoricalCode ms))

/-- Sample snapshot record: a level-1 canton with `short_name = 'ZH'`. -/
def demoCantonZH : MunicipalityV1 :=
  MunicipalityV1.mk "1" none "Zürich" (some "ZH") none none (some 1) none none none
    (some "Canton")

/-- Sample snapshot record: a level-2 district whose parent is the canton. -/
def demoDistrict : MunicipalityV1 :=
  MunicipalityV1.mk "101" none "Bezirk Zürich" none none none (some 2) (some "1") none
    none (some "District")

/-- Sample snapshot record: a level-3 municipality whose parent is the district. -/
def demoMuni : MunicipalityV1 :=
  MunicipalityV1.mk "261" (some "261") "Zürich" (some "Zürich") none none (some 3)
    (some "101") none none (some "Commune")

/-- Sample snapshot: canton, district and municipality forming a 2-hop parent chain. -/
def demoSnapshot : List MunicipalityV1 := [demoCantonZH, demoDistrict, demoMuni]

/-! ## Postal locality records (`geo/models/postal_codes.py`) -/

/-- The `PostalLocalityV1` record of `geo/models/postal_codes.py` (pydantic model,
frozen). Coordinates are modelled as rationals (the claims in scope do not involve
floating-point rounding). -/
structure PostalLocalityV1 where
  locality_name : String
  postal_code : String
  additional_digit : String
  municipality_name : String
  bfs_number : Int
  canton_code : String
  easting : ℚ
  northing : ℚ
  language : String
  validity_date : String
deriving DecidableEq

/-- Property `PostalLocalityV1.full_postal_code`: append `-NN` when the additional digit
is truthy (non-empty) and not `"00"`. -/
def PostalLocalityV1.full_postal_code (r : PostalLocalityV1) : String :=
  if r.additional_digit ≠ "" ∧ r.additional_digit ≠ "00" then
    r.postal_code ++ "-" ++ r.additional_digit
  else r.postal_code

/-- The `uppercase_canton_code` before-validator of `PostalLocalityV1`: when the raw
value is truthy and not whitespace-only, return `v.upper().strip()`; otherwise the
empty string (the Liechtenstein case). -/
def uppercase_canton_code (v : List Char) : List Char :=
  if v ≠ [] ∧ pyStrip v ≠ [] then pyStrip (v.map Char.toUpper) else []

/-- The field pattern of `canton_code`: two uppercase ASCII letters, or empty. -/
def matchTwoUpperOrEmpty : List Char → Bool
  | [] => true
  | [a, b] => a.isUpper && b.isUpper
  | _ => false

/-- A string of exactly `n` decimal digits (the patterns of `postal_code` and
`additional_digit`). -/
def matchDigits (n : Nat) (l : List Char) : Bool := l.length == n && allDigits l

/-- The field pattern of `validity_date`: four digits, dash, two digits, dash, two
digits. -/
def matchDateDigits : List Char → Bool
  | [a, b, c, d, '-', e, f, '-', g, h] =>
    a.isDigit && b.isDigit && c.isDigit && d.isDigit && e.isDigit && f.isDigit
      && g.isDigit && h.isDigit
  | _ => false

/-- Lift `pyStrip` to `String` (pydantic's `str_strip_whitespace=True`). -/
def pyStripS (s : String) : String := String.mk (pyStrip s.data)

/-- Constructing a `PostalLocalityV1` per its pydantic declaration: the before-validator
normalizes `canton_code`, every string field is whitespace-stripped, then each field's
declared pattern/range/length constraint is checked; any failure rejects the record. -/
def mkPostalLocalityV1 (locality_name postal_code additional_digit
    municipality_name : String) (bfs_number : Int) (canton_code : String)
    (easting northing : ℚ) (language validity_date : String) :
    Option PostalLocalityV1 :=
  let ln := pyStripS locality_name
  let pc := pyStripS postal_code
  let ad := pyStripS additional_digit
  let mn := pyStripS municipality_name
  let cc := String.mk (pyStrip (uppercase_canton_code canton_code.data))
  let lg := pyStripS language
  let vd := pyStripS validity_date
  if 1 ≤ ln.data.length ∧ ln.data.length ≤ 100
      ∧ matchDigits 4 pc.data = true
      ∧ matchDigits 2 ad.data = true
      ∧ 1 ≤ mn.data.length ∧ mn.data.length ≤ 100
      ∧ 1 ≤ bfs_number ∧ bfs_number ≤ 9999
      ∧ matchTwoUpperOrEmpty cc.data = true
      ∧ 2485000 ≤ easting ∧ easting ≤ 2834000
      ∧ 1075000 ≤ northing ∧ northing ≤ 1296000
      ∧ (lg = "de" ∨ lg = "fr" ∨ lg = "it" ∨ lg = "rm" ∨ lg = "multiple")
      ∧ matchDateDigits vd.data = true then
    some (PostalLocalityV1.mk ln pc ad mn bfs_number cc easting northing lg vd)
  else none

/-! ## Country-code importer (`importers/bfs_country_importer.py`) -/

/-- One data row of the `Stat_Geb` worksheet, at the fixed column positions the importer
reads (A, C, D, E, F, G, H, W). Cells are modelled as optional strings: an absent cell
is `none`, and the `str(...)` coercion of the BFS-code cell is pre-applied. -/
structure XlsxRow where
  bfs_code : Option String
  iso2 : Option String
  iso3 : Option String
  name_de : Option String
  name_fr : Option String
  name_it : Option String
  name_en : Option String
  valid : Option String
deriving DecidableEq

/-- Python truthiness of a cell: present and non-empty. -/
def cellTruthy : Option String → Bool
  | none => false
  | some s => s ≠ ""

/-- Cell value with falsy values replaced by the empty string (`x if x else ''`). -/
def cellOrEmpty : Option String → String
  | none => ""
  | some s => s

/-- Insert into the insertion-ordered dict `countries` as Python does: overwrite in
place when the key exists, else append. -/
def dictInsert (m : List (String × CountryData)) (k : String) (v : CountryData) :
    List (String × CountryData) :=
  if (m.map Prod.fst).contains k then
    m.map (fun p => if p.1 = k then (k, v) else p)
  else m ++ [(k, v)]

/-- The row loop of `import_country_codes`: keep a row only when the validity cell
equals `J` and both the BFS code and the ISO2 cells are truthy; missing name cells
become empty strings. -/
def parseCountryRows (rows : List XlsxRow) : List (String × CountryData) :=
  rows.foldl
    (fun acc row =>
      if row.valid == some "J" && cellTruthy row.bfs_code && cellTruthy row.iso2 then
        dictInsert acc (cellOrEmpty row.iso2)
          (CountryData.mk (cellOrEmpty row.bfs_code) (cellOrEmpty row.iso3)
            (cellOrEmpty row.name_de) (cellOrEmpty row.name_fr)
            (cellOrEmpty row.name_it) (cellOrEmpty row.name_en))
      else acc)
    []

/-- The generated module body: the parsed dict written out sorted by ISO2 key. -/
def generatedAsset (countries : List (String × CountryData)) :
    List (String × CountryData) :=
  (pySorted (countries.map Prod.fst)).filterMap
    (fun k => (countries.lookup k).map (fun d => (k, d)))

/-- The filesystem state `import_country_codes` can write: the generated module
`generated/bfs/country_codes.py` (modelled by the country table it carries) and the
`VERSION` marker (modelled by the source filename it records; the embedded generation
timestamp is outside the embedding). -/
structure ImporterFS where
  outputFile : Option (List (String × CountryData))
  versionFile : Option String
deriving DecidableEq

/-- The source workbook: its sheet names and the rows of the `Stat_Geb` sheet (header
row included; the importer skips row 0). -/
structure Workbook where
  sheetnames : List String
  statGebRows : List XlsxRow
deriving DecidableEq

/-- Method `BFSCountryImporter.import_country_codes(force)`: return `True` without
writing when the output exists and `force` is unset; fail on a missing workbook or a
missing `Stat_Geb` sheet; otherwise parse the rows and write the generated module and
the version marker. The result pairs the returned boolean with the filesystem state
after the call. -/
def import_country_codes (force : Bool) (fs : ImporterFS)
    (workbook : Option Workbook) : Bool × ImporterFS :=
  if !force && fs.outputFile.isSome then (true, fs)
  else
    match workbook with
    | none => (false, fs)
    | some wb =>
      if !(wb.sheetnames.contains "Stat_Geb") then (false, fs)
      else
        let countries := parseCountryRows (wb.statGebRows.drop 1)
        (true, ImporterFS.mk (some (generatedAsset countries))
          (some "be-b-00.04-sg-01.xlsx"))

/-! ## Theorems about the country lookup API (claims C1, C4, C7) -/

set_option maxRecDepth 10000 in
set_option maxHeartbeats 4000000 in
/-- C4: `get_country('CH')` returns a record with bfs_code `'8100'`, iso3 `'CHE'`,
name_de `'Schweiz'`, name_fr `'Suisse'`, name_it `'Svizzera'`, name_en `'Switzerland'`. -/
theorem get_country_CH_values :
    get_country "CH" =
      some ⟨"CH", "8100", "CHE", "Schweiz", "Suisse", "Svizzera", "Switzerland"⟩ := by
  decide

set_option maxRecDepth 10000 in
set_option maxHeartbeats 16000000 in
/-- C7: `get_all_countries()` returns one record per entry of the bundled asset
(249 entries, more than 200), strictly ascending by ISO2 code in Python string order,
and includes records for `CH`, `DE`, `FR` and `US`. -/
theorem get_all_countries_spec :
    get_all_countries.length = countryCodes.length
    ∧ 200 < get_all_countries.length
    ∧ strictAscStr (get_all_countries.map Country.iso2) = true
    ∧ (get_all_countries.map Country.iso2).contains "CH" = true
    ∧ (get_all_countries.map Country.iso2).contains "DE" = true
    ∧ (get_all_countries.map Country.iso2).contains "FR" = true
    ∧ (get_all_countries.map Country.iso2).contains "US" = true := by
  decide

set_option maxRecDepth 10000 in
set_option maxHeartbeats 16000000 in
/-- C1 counterexample: the claim says `search_countries(query, language)` with a language
code outside `de`/`fr`/`it`/`en` always returns the empty list; but
`search_countries('Schweiz', 'xx')` is non-empty, because `Country.get_name` falls back
to the German name for an unknown language during the search. -/
theorem search_unknown_lang_counterexample :
    search_countries "Schweiz" "xx" ≠ [] := by
  decide

/-- C1 amended: for a language code outside `de`/`fr`/`it`/`en`, `search_countries`
behaves exactly like a German-language search (record-level `get_name` fallback applies
during search too), rather than never matching. -/
theorem search_unknown_lang_falls_back (query language : String)
    (h1 : language ≠ "de") (h2 : language ≠ "fr") (h3 : language ≠ "it")
    (h4 : language ≠ "en") :
    search_countries query language = search_countries query "de" := by
  simp [search_countries, Country.get_name, h1, h2, h3, h4]

/-- Witness for `search_unknown_lang_falls_back` at the concrete unknown language
`'xx'` and query `'Schweiz'`. -/
theorem search_unknown_lang_falls_back_witness :
    search_countries "Schweiz" "xx" = search_countries "Schweiz" "de" :=
  search_unknown_lang_falls_back "Schweiz" "xx" (by decide) (by decide) (by decide)
    (by decide)


/-! ## Theorems about the geo framework, records and importer
(claims C2, C3, C5, C8, C10) -/

/-- C2: on `RemoteFetchError` with fallback not allowed, `_fetch_or_fallback` raises
`NoFallbackDataError` without ever invoking the fallback function; with fallback allowed
and a succeeding fallback, the fallback's result is returned and nothing is raised; with
fallback allowed and a failing fallback, `NoFallbackDataError` is raised carrying the
original remote error in its message. -/
theorem fetch_or_fallback_spec {α : Type} (remoteMsg errorContext : String)
    (fallbackResult : Except String α) :
    (fetchOrFallback false (Except.error remoteMsg) fallbackResult errorContext =
      FetchOutcome.mk (.error (.noFallbackDataError
        ("Failed to fetch " ++ errorContext ++
         " from remote API and fallback not allowed. " ++
         "Use fallback_allowed=True to use cached data. Error: " ++ remoteMsg))) false)
    ∧ (∀ v : α, fetchOrFallback true (Except.error remoteMsg) (Except.ok v)
        errorContext = FetchOutcome.mk (.ok v) true)
    ∧ (∀ fallbackMsg : String,
        fetchOrFallback true (Except.error remoteMsg)
          (Except.error fallbackMsg : Except String α) errorContext =
          FetchOutcome.mk (.error (.noFallbackDataError
            ("Failed to fetch " ++ errorContext ++
             " from remote API and no fallback data available. " ++
             "Original error: " ++ remoteMsg))) true) := by
  refine ⟨rfl, fun v => rfl, fun m => rfl⟩

/-- Witness for `fetch_or_fallback_spec`: a failing remote fetch with a succeeding
fallback returns the fallback data. -/
theorem fetch_or_fallback_witness :
    fetchOrFallback true (Except.error "boom") (Except.ok "csv")
      "municipality data" = FetchOutcome.mk (.ok "csv") true :=
  (fetch_or_fallback_spec "boom" "municipality data" (Except.ok "csv")).2.1 "csv"

/-- C3: canton enrichment assigns a level-1 record its own `short_name`/`name`; a record
whose parent resolves to a non-level-1 record whose own parent resolves to a level-1
canton gets that canton's code and name (the 2-hop case); an unresolvable parent
reference leaves both canton fields absent; and a chain of five resolvable non-level-1
parents exhausts the `max_depth = 5` cap, leaving both canton fields absent — in every
case enrichment returns a record rather than erring. -/
theorem enrich_with_cantons_spec (ms : List MunicipalityV1) (m : MunicipalityV1) :
    enrich_with_cantons ms = ms.map (enrichOne (byHistoricalCode ms))
    ∧ (m.level = some 1 →
        (enrichOne (byHistoricalCode ms) m).canton_code = m.short_name
        ∧ (enrichOne (byHistoricalCode ms) m).canton_name = some m.name)
    ∧ (∀ p district q canton, m.level ≠ some 1 → m.parent = some p →
        byHistoricalCode ms p = some district → district.level ≠ some 1 →
        district.parent = some q → byHistoricalCode ms q = some canton →
        canton.level = some 1 →
        (enrichOne (byHistoricalCode ms) m).canton_code = canton.short_name
        ∧ (enrichOne (byHistoricalCode ms) m).canton_name = some canton.name)
    ∧ (∀ p, m.level ≠ some 1 → m.parent = some p → byHistoricalCode ms p = none →
        (enrichOne (byHistoricalCode ms) m).canton_code = none
        ∧ (enrichOne (byHistoricalCode ms) m).canton_name = none)
    ∧ (∀ p1 p2 p3 p4 p5 d1 d2 d3 d4 d5, m.level ≠ some 1 → m.parent = some p1 →
        byHistoricalCode ms p1 = some d1 → d1.level ≠ some 1 → d1.parent = some p2 →
        byHistoricalCode ms p2 = some d2 → d2.level ≠ some 1 → d2.parent = some p3 →
        byHistoricalCode ms p3 = some d3 → d3.level ≠ some 1 → d3.parent = some p4 →
        byHistoricalCode ms p4 = some d4 → d4.level ≠ some 1 → d4.parent = some p5 →
        byHistoricalCode ms p5 = some d5 → d5.level ≠ some 1 →
        (enrichOne (byHistoricalCode ms) m).canton_code = none
        ∧ (enrichOne (byHistoricalCode ms) m).canton_name = none) := by
  refine ⟨rfl, ?_, ?_, ?_, ?_⟩
  · intro h
    constructor <;> simp [enrichOne, h]
  · intro p district q canton hlv hp hlkp hdlv hdp hlkq hclv
    constructor <;>
      simp [enrichOne, cantonWalk, hlv, hp, hlkp, hdlv, hdp, hlkq, hclv]
  · intro p hlv hp hlkp
    constructor <;> simp [enrichOne, cantonWalk, hlv, hp, hlkp]
  · intro p1 p2 p3 p4 p5 d1 d2 d3 d4 d5 hlv hp1 hl1 hd1 hq1 hl2 hd2 hq2 hl3 hd3 hq3
      hl4 hd4 hq4 hl5 hd5
    constructor <;>
      simp [enrichOne, cantonWalk, hlv, hp1, hl1, hd1, hq1, hl2, hd2, hq2, hl3, hd3,
        hq3, hl4, hd4, hq4, hl5, hd5]

/-- Witness for `enrich_with_cantons_spec` on the sample snapshot: the 2-hop case gives
the municipality the canton code `ZH` and canton name `Zürich`. -/
theorem enrich_with_cantons_spec_witness :
    (enrichOne (byHistoricalCode demoSnapshot) demoMuni).canton_code = some "ZH"
    ∧ (enrichOne (byHistoricalCode demoSnapshot) demoMuni).canton_name =
        some "Zürich" :=
  (enrich_with_cantons_spec demoSnapshot demoMuni).2.2.1 "101" demoDistrict "1"
    demoCantonZH (by decide) (by decide) (by decide) (by decide) (by decide)
    (by decide) (by decide)

/-- C5: for every postal locality record, an additional digit of `"00"` makes
`full_postal_code` equal `postal_code` exactly, and any other two-digit additional digit
`NN` makes it `postal_code ++ "-" ++ NN`. -/
theorem full_postal_code_spec (r : PostalLocalityV1) :
    (r.additional_digit = "00" → r.full_postal_code = r.postal_code)
    ∧ (matchDigits 2 r.additional_digit.data = true → r.additional_digit ≠ "00" →
        r.full_postal_code = r.postal_code ++ "-" ++ r.additional_digit) := by
  constructor
  · intro h
    simp [PostalLocalityV1.full_postal_code, h]
  · intro h2 hne
    have hne' : r.additional_digit ≠ "" := by
      intro he
      rw [he] at h2
      simp [matchDigits] at h2
    simp [PostalLocalityV1.full_postal_code, hne, hne']

/-- Witness for `full_postal_code_spec` at the two concrete records of the spec's
example: additional digit `00` gives `8001`, additional digit `02` gives `8001-02`. -/
theorem full_postal_code_witness :
    ((PostalLocalityV1.mk "Zürich" "8001" "00" "Zürich" 261 "ZH" 2683141 1247935
        "de" "2008-07-01").full_postal_code = "8001")
    ∧ ((PostalLocalityV1.mk "Zürich" "8001" "02" "Zürich" 261 "ZH" 2683141 1247935
        "de" "2008-07-01").full_postal_code = "8001" ++ "-" ++ "02") :=
  And.intro
    ((full_postal_code_spec (PostalLocalityV1.mk "Zürich" "8001" "00" "Zürich" 261 "ZH"
      2683141 1247935 "de" "2008-07-01")).1 rfl)
    ((full_postal_code_spec (PostalLocalityV1.mk "Zürich" "8001" "02" "Zürich" 261 "ZH"
      2683141 1247935 "de" "2008-07-01")).2 (by decide) (by decide))

/-- C8: with the generated output present and `force` unset, `import_country_codes`
reports success and performs no write (the filesystem state is unchanged); consequently
a second run with `force=False` right after any successful run is a no-op. -/
theorem import_country_codes_idempotent (force : Bool) (fs fs' : ImporterFS)
    (wb wb' : Option Workbook) :
    (fs.outputFile.isSome → import_country_codes false fs wb = (true, fs))
    ∧ (import_country_codes force fs wb = (true, fs') →
        import_country_codes false fs' wb' = (true, fs')) := by
  constructor
  · intro h
    simp [import_country_codes, h]
  · intro h
    have hsome : fs'.outputFile.isSome := by
      unfold import_country_codes at h
      by_cases hguard : (!force && fs.outputFile.isSome) = true
      · rw [if_pos hguard] at h
        injection h with h1 h2
        subst h2
        have hg := hguard
        simp only [Bool.and_eq_true] at hg
        exact hg.2
      · rw [if_neg hguard] at h
        cases wb with
        | none => simp at h
        | some w =>
          dsimp only at h
          by_cases hsheet : (!(w.sheetnames.contains "Stat_Geb")) = true
          · rw [if_pos hsheet] at h
            simp at h
          · rw [if_neg hsheet] at h
            injection h with h1 h2
            subst h2
            rfl
    simp [import_country_codes, hsome]

/-- Witness for `import_country_codes_idempotent`: the guard is a no-op on an existing
output, and a run that succeeded (here: empty `Stat_Geb` sheet) is followed by a no-op
second run. -/
theorem import_country_codes_idempotent_witness :
    (import_country_codes false (ImporterFS.mk (some []) none) none =
      (true, ImporterFS.mk (some []) none))
    ∧ (import_country_codes false
        (ImporterFS.mk (some []) (some "be-b-00.04-sg-01.xlsx")) none =
        (true, ImporterFS.mk (some []) (some "be-b-00.04-sg-01.xlsx"))) :=
  And.intro
    ((import_country_codes_idempotent false (ImporterFS.mk (some []) none)
      (ImporterFS.mk (some []) none) none none).1 (by decide))
    ((import_country_codes_idempotent true (ImporterFS.mk none none)
      (ImporterFS.mk (some []) (some "be-b-00.04-sg-01.xlsx"))
      (some (Workbook.mk ["Stat_Geb"] [])) none).2 (by decide))

/-- C10: canton enrichment can yield a record whose `canton_name` is present while its
`canton_code` is absent — here the level-1 ancestor has no `short_name`, so the enriched
municipality gets `canton_name = 'Zürich'` but no `canton_code`; hence "code present iff
name present" is not an invariant of enriched records. -/
theorem enriched_canton_name_without_code :
    ((enrich_with_cantons
        [MunicipalityV1.mk "1" none "Zürich" none none none (some 1) none none none
          none,
         MunicipalityV1.mk "261" (some "261") "Zürich" none none none (some 3)
          (some "1") none none none])[1]?).map
      (fun r => (r.canton_code, r.canton_name)) = some (none, some "Zürich") := by
  decide

/-! ## Theorems about canton-code normalization (claim C9) -/

/-- Facts about the ASCII letters needed by the canton-code proofs: letters and their
uppercased forms are not whitespace, and uppercasing a letter yields an uppercase
letter. -/
theorem asciiLetter_facts : ∀ c ∈ asciiLetters,
    pyIsSpace c = false ∧ pyIsSpace c.toUpper = false ∧ (c.toUpper).isUpper = true := by
  decide

/-- Stripping a two-character string of non-whitespace characters is the identity. -/
theorem pyStrip_pair (a b : Char) (ha : pyIsSpace a = false)
    (hb : pyIsSpace b = false) : pyStrip [a, b] = [a, b] := by
  simp [pyStrip, List.dropWhile_cons, ha, hb]

/-- The before-validator on a two-letter value upper-cases both characters. -/
theorem uppercase_canton_code_pair (a b : Char) (ha : pyIsSpace a = false)
    (hb : pyIsSpace b = false) (ha' : pyIsSpace a.toUpper = false)
    (hb' : pyIsSpace b.toUpper = false) :
    uppercase_canton_code [a, b] = [a.toUpper, b.toUpper] := by
  rw [uppercase_canton_code, if_pos]
  · simp only [List.map]
    exact pyStrip_pair _ _ ha' hb'
  · exact ⟨by simp, by rw [pyStrip_pair a b ha hb]; simp⟩

/-- C9: constructing a `PostalLocalityV1` with any two-letter `canton_code` input —
lowercase or mixed-case included — succeeds, and the constructed record stores the
uppercased form: the before-validator upper-cases the value before the
two-uppercase-letters pattern is checked. -/
theorem canton_code_uppercased (c1 c2 : Char) (h1 : c1 ∈ asciiLetters)
    (h2 : c2 ∈ asciiLetters) :
    mkPostalLocalityV1 "Zürich" "8001" "00" "Zürich" 261 (String.mk [c1, c2])
      2683141 1247935 "de" "2008-07-01"
    = some (PostalLocalityV1.mk "Zürich" "8001" "00" "Zürich" 261
        (String.mk [Char.toUpper c1, Char.toUpper c2]) 2683141 1247935 "de"
        "2008-07-01") := by
  obtain ⟨f1, f1u, f1up⟩ := asciiLetter_facts c1 h1
  obtain ⟨f2, f2u, f2up⟩ := asciiLetter_facts c2 h2
  have huc : uppercase_canton_code (String.mk [c1, c2]).data =
      [c1.toUpper, c2.toUpper] := by
    show uppercase_canton_code [c1, c2] = [c1.toUpper, c2.toUpper]
    exact uppercase_canton_code_pair c1 c2 f1 f2 f1u f2u
  have hstrip : pyStrip [c1.toUpper, c2.toUpper] = [c1.toUpper, c2.toUpper] :=
    pyStrip_pair _ _ f1u f2u
  have hpat : matchTwoUpperOrEmpty [c1.toUpper, c2.toUpper] = true := by
    simp [matchTwoUpperOrEmpty, f1up, f2up]
  simp only [mkPostalLocalityV1, huc, hstrip]
  rw [if_pos]
  · rfl
  · refine ⟨by decide, by decide, by decide, by decide, by decide, by decide,
      by decide, by decide, ?_, by decide, by decide, by decide, by decide,
      by decide, by decide⟩
    exact hpat

/-- Witness for `canton_code_uppercased` at the lowercase input `zh`: construction
succeeds and the record stores `ZH`. -/
theorem canton_code_uppercased_witness :
    mkPostalLocalityV1 "Zürich" "8001" "00" "Zürich" 261 (String.mk ['z', 'h'])
      2683141 1247935 "de" "2008-07-01"
    = some (PostalLocalityV1.mk "Zürich" "8001" "00" "Zürich" 261 "ZH" 2683141
        1247935 "de" "2008-07-01") :=
  canton_code_uppercased 'z' 'h' (by decide) (by decide)


/-! ## Theorems about multi-format date parsing (claim C6) -/

/-- Facts about the decimal digit characters needed by the date-parsing proofs: digits
are digits, are not whitespace, and differ from the separator and sign characters. -/
theorem digitChar_facts : ∀ c ∈ digitChars,
    c.isDigit = true ∧ pyIsSpace c = false ∧ (c == '-') = false ∧ ('-' == c) = false
      ∧ (c == '+') = false ∧ (c == '.') = false ∧ ('.' == c) = false := by
  decide

/-- The trailing-whitespace fold leaves a list without whitespace unchanged. -/
theorem stripRight_nonspace (l : List Char) (h : ∀ c ∈ l, pyIsSpace c = false) :
    l.foldr (fun c acc => if pyIsSpace c && acc.isEmpty then [] else c :: acc) [] =
      l := by
  induction l with
  | nil => rfl
  | cons c rest ih =>
    have hc : pyIsSpace c = false := h c (by simp)
    have hr := ih (fun x hx => h x (by simp [hx]))
    simp only [List.foldr_cons, hr, hc]
    cases rest <;> simp

/-- Stripping a string without whitespace characters is the identity. -/
theorem pyStrip_nonspace (l : List Char) (h : ∀ c ∈ l, pyIsSpace c = false) :
    pyStrip l = l := by
  unfold pyStrip
  have hd : l.dropWhile pyIsSpace = l := by
    cases l with
    | nil => rfl
    | cons c rest => simp [List.dropWhile_cons, h c (by simp)]
  rw [hd, stripRight_nonspace l h]

/-- Python `int()` on a non-empty all-digit string yields its decimal value. -/
theorem pyInt_digits (l : List Char) (hne : l ≠ []) (h : ∀ c ∈ l, c ∈ digitChars) :
    pyInt l = some ((digitsToNat l : Nat) : Int) := by
  have hsp : ∀ c ∈ l, pyIsSpace c = false := fun c hc => (digitChar_facts c (h c hc)).2.1
  have hall : allDigits l = true := by
    simp only [allDigits, List.all_eq_true]
    exact fun c hc => (digitChar_facts c (h c hc)).1
  unfold pyInt
  rw [pyStrip_nonspace l hsp]
  cases l with
  | nil => exact absurd rfl hne
  | cons c rest =>
    have hfc := digitChar_facts c (h c (by simp))
    dsimp only
    rw [if_neg (by simp [hfc.2.2.1]), if_neg (by simp [hfc.2.2.2.2.1]), if_pos hall]

/-- A digit string in `DD-MM-YYYY` shape whose components form a constructible date
parses to that date. -/
theorem parse_date_ddmmyyyy (dA dB mA mB yA yB yC yD : Char)
    (hdA : dA ∈ digitChars) (hdB : dB ∈ digitChars) (hmA : mA ∈ digitChars)
    (hmB : mB ∈ digitChars) (hyA : yA ∈ digitChars) (hyB : yB ∈ digitChars)
    (hyC : yC ∈ digitChars) (hyD : yD ∈ digitChars) (dt : PyDate)
    (hmk : mkPyDate ((digitsToNat [yA, yB, yC, yD] : Nat) : Int)
      ((digitsToNat [mA, mB] : Nat) : Int)
      ((digitsToNat [dA, dB] : Nat) : Int) = some dt) :
    parse_date [dA, dB, '-', mA, mB, '-', yA, yB, yC, yD] = some dt := by
  have fdA := digitChar_facts dA hdA
  have fdB := digitChar_facts dB hdB
  have fmA := digitChar_facts mA hmA
  have fmB := digitChar_facts mB hmB
  have fyA := digitChar_facts yA hyA
  have fyB := digitChar_facts yB hyB
  have fyC := digitChar_facts yC hyC
  have fyD := digitChar_facts yD hyD
  have hsp : ∀ c ∈ [dA, dB, '-', mA, mB, '-', yA, yB, yC, yD],
      pyIsSpace c = false := by
    intro c hc
    simp only [List.mem_cons, List.not_mem_nil, or_false] at hc
    rcases hc with rfl | rfl | rfl | rfl | rfl | rfl | rfl | rfl | rfl | rfl
    exacts [fdA.2.1, fdB.2.1, by decide, fmA.2.1, fmB.2.1, by decide, fyA.2.1,
      fyB.2.1, fyC.2.1, fyD.2.1]
  have hstrip := pyStrip_nonspace _ hsp
  have hsplit : pySplit '-' [dA, dB, '-', mA, mB, '-', yA, yB, yC, yD] =
      [[dA, dB], [mA, mB], [yA, yB, yC, yD]] := by
    simp [pySplit, fdA.2.2.1, fdB.2.2.1, fmA.2.2.1, fmB.2.2.1, fyA.2.2.1, fyB.2.2.1,
      fyC.2.2.1, fyD.2.2.1]
  have hint1 : pyInt [dA, dB] = some ((digitsToNat [dA, dB] : Nat) : Int) :=
    pyInt_digits _ (by simp) (by
      intro c hc
      simp only [List.mem_cons, List.not_mem_nil, or_false] at hc
      rcases hc with rfl | rfl
      exacts [hdA, hdB])
  have hint2 : pyInt [mA, mB] = some ((digitsToNat [mA, mB] : Nat) : Int) :=
    pyInt_digits _ (by simp) (by
      intro c hc
      simp only [List.mem_cons, List.not_mem_nil, or_false] at hc
      rcases hc with rfl | rfl
      exacts [hmA, hmB])
  have hint3 : pyInt [yA, yB, yC, yD] =
      some ((digitsToNat [yA, yB, yC, yD] : Nat) : Int) :=
    pyInt_digits _ (by simp) (by
      intro c hc
      simp only [List.mem_cons, List.not_mem_nil, or_false] at hc
      rcases hc with rfl | rfl | rfl | rfl
      exacts [hyA, hyB, hyC, hyD])
  simp [parse_date, hstrip, hsplit, hasChar, hint1, hint2, hint3, hmk]

/-- A digit string in `YYYY-MM-DD` shape whose components form a constructible date
parses to that date. -/
theorem parse_date_yyyymmdd (dA dB mA mB yA yB yC yD : Char)
    (hdA : dA ∈ digitChars) (hdB : dB ∈ digitChars) (hmA : mA ∈ digitChars)
    (hmB : mB ∈ digitChars) (hyA : yA ∈ digitChars) (hyB : yB ∈ digitChars)
    (hyC : yC ∈ digitChars) (hyD : yD ∈ digitChars) (dt : PyDate)
    (hmk : mkPyDate ((digitsToNat [yA, yB, yC, yD] : Nat) : Int)
      ((digitsToNat [mA, mB] : Nat) : Int)
      ((digitsToNat [dA, dB] : Nat) : Int) = some dt) :
    parse_date [yA, yB, yC, yD, '-', mA, mB, '-', dA, dB] = some dt := by
  have fdA := digitChar_facts dA hdA
  have fdB := digitChar_facts dB hdB
  have fmA := digitChar_facts mA hmA
  have fmB := digitChar_facts mB hmB
  have fyA := digitChar_facts yA hyA
  have fyB := digitChar_facts yB hyB
  have fyC := digitChar_facts yC hyC
  have fyD := digitChar_facts yD hyD
  have hsp : ∀ c ∈ [yA, yB, yC, yD, '-', mA, mB, '-', dA, dB],
      pyIsSpace c = false := by
    intro c hc
    simp only [List.mem_cons, List.not_mem_nil, or_false] at hc
    rcases hc with rfl | rfl | rfl | rfl | rfl | rfl | rfl | rfl | rfl | rfl
    exacts [fyA.2.1, fyB.2.1, fyC.2.1, fyD.2.1, by decide, fmA.2.1, fmB.2.1,
      by decide, fdA.2.1, fdB.2.1]
  have hstrip := pyStrip_nonspace _ hsp
  have hsplit : pySplit '-' [yA, yB, yC, yD, '-', mA, mB, '-', dA, dB] =
      [[yA, yB, yC, yD], [mA, mB], [dA, dB]] := by
    simp [pySplit, fdA.2.2.1, fdB.2.2.1, fmA.2.2.1, fmB.2.2.1, fyA.2.2.1, fyB.2.2.1,
      fyC.2.2.1, fyD.2.2.1]
  have hint1 : pyInt [dA, dB] = some ((digitsToNat [dA, dB] : Nat) : Int) :=
    pyInt_digits _ (by simp) (by
      intro c hc
      simp only [List.mem_cons, List.not_mem_nil, or_false] at hc
      rcases hc with rfl | rfl
      exacts [hdA, hdB])
  have hint2 : pyInt [mA, mB] = some ((digitsToNat [mA, mB] : Nat) : Int) :=
    pyInt_digits _ (by simp) (by
      intro c hc
      simp only [List.mem_cons, List.not_mem_nil, or_false] at hc
      rcases hc with rfl | rfl
      exacts [hmA, hmB])
  have hint3 : pyInt [yA, yB, yC, yD] =
      some ((digitsToNat [yA, yB, yC, yD] : Nat) : Int) :=
    pyInt_digits _ (by simp) (by
      intro c hc
      simp only [List.mem_cons, List.not_mem_nil, or_false] at hc
      rcases hc with rfl | rfl | rfl | rfl
      exacts [hyA, hyB, hyC, hyD])
  simp [parse_date, hstrip, hsplit, hasChar, hint1, hint2, hint3, hmk]

/-- A digit string in `DD.MM.YYYY` shape whose components form a constructible date
parses to that date. -/
theorem parse_date_dots (dA dB mA mB yA yB yC yD : Char)
    (hdA : dA ∈ digitChars) (hdB : dB ∈ digitChars) (hmA : mA ∈ digitChars)
    (hmB : mB ∈ digitChars) (hyA : yA ∈ digitChars) (hyB : yB ∈ digitChars)
    (hyC : yC ∈ digitChars) (hyD : yD ∈ digitChars) (dt : PyDate)
    (hmk : mkPyDate ((digitsToNat [yA, yB, yC, yD] : Nat) : Int)
      ((digitsToNat [mA, mB] : Nat) : Int)
      ((digitsToNat [dA, dB] : Nat) : Int) = some dt) :
    parse_date [dA, dB, '.', mA, mB, '.', yA, yB, yC, yD] = some dt := by
  have fdA := digitChar_facts dA hdA
  have fdB := digitChar_facts dB hdB
  have fmA := digitChar_facts mA hmA
  have fmB := digitChar_facts mB hmB
  have fyA := digitChar_facts yA hyA
  have fyB := digitChar_facts yB hyB
  have fyC := digitChar_facts yC hyC
  have fyD := digitChar_facts yD hyD
  have hsp : ∀ c ∈ [dA, dB, '.', mA, mB, '.', yA, yB, yC, yD],
      pyIsSpace c = false := by
    intro c hc
    simp only [List.mem_cons, List.not_mem_nil, or_false] at hc
    rcases hc with rfl | rfl | rfl | rfl | rfl | rfl | rfl | rfl | rfl | rfl
    exacts [fdA.2.1, fdB.2.1, by decide, fmA.2.1, fmB.2.1, by decide, fyA.2.1,
      fyB.2.1, fyC.2.1, fyD.2.1]
  have hstrip := pyStrip_nonspace _ hsp
  have hnodash : hasChar '-' [dA, dB, '.', mA, mB, '.', yA, yB, yC, yD] = false := by
    simp [hasChar, fdA.2.2.1, fdB.2.2.1, fmA.2.2.1, fmB.2.2.1, fyA.2.2.1, fyB.2.2.1,
      fyC.2.2.1, fyD.2.2.1]
  have hsplit : pySplit '.' [dA, dB, '.', mA, mB, '.', yA, yB, yC, yD] =
      [[dA, dB], [mA, mB], [yA, yB, yC, yD]] := by
    simp [pySplit, fdA.2.2.2.2.2.1, fdB.2.2.2.2.2.1, fmA.2.2.2.2.2.1,
      fmB.2.2.2.2.2.1, fyA.2.2.2.2.2.1, fyB.2.2.2.2.2.1, fyC.2.2.2.2.2.1,
      fyD.2.2.2.2.2.1]
  have hint1 : pyInt [dA, dB] = some ((digitsToNat [dA, dB] : Nat) : Int) :=
    pyInt_digits _ (by simp) (by
      intro c hc
      simp only [List.mem_cons, List.not_mem_nil, or_false] at hc
      rcases hc with rfl | rfl
      exacts [hdA, hdB])
  have hint2 : pyInt [mA, mB] = some ((digitsToNat [mA, mB] : Nat) : Int) :=
    pyInt_digits _ (by simp) (by
      intro c hc
      simp only [List.mem_cons, List.not_mem_nil, or_false] at hc
      rcases hc with rfl | rfl
      exacts [hmA, hmB])
  have hint3 : pyInt [yA, yB, yC, yD] =
      some ((digitsToNat [yA, yB, yC, yD] : Nat) : Int) :=
    pyInt_digits _ (by simp) (by
      intro c hc
      simp only [List.mem_cons, List.not_mem_nil, or_false] at hc
      rcases hc with rfl | rfl | rfl | rfl
      exacts [hyA, hyB, hyC, hyD])
  have ndA : ¬(dA = '-') := by simpa using fdA.2.2.1
  have ndB : ¬(dB = '-') := by simpa using fdB.2.2.1
  have nmA : ¬(mA = '-') := by simpa using fmA.2.2.1
  have nmB : ¬(mB = '-') := by simpa using fmB.2.2.1
  have nyA : ¬(yA = '-') := by simpa using fyA.2.2.1
  have nyB : ¬(yB = '-') := by simpa using fyB.2.2.1
  have nyC : ¬(yC = '-') := by simpa using fyC.2.2.1
  have nyD : ¬(yD = '-') := by simpa using fyD.2.2.1
  simp [parse_date, hstrip, hnodash, hsplit, hasChar, hint1, hint2, hint3, hmk,
    ndA, ndB, nmA, nmB, nyA, nyB, nyC, nyD]

/-- C6: strings in `DD-MM-YYYY`, `YYYY-MM-DD` or `DD.MM.YYYY` shape whose components
form a valid `datetime.date` are parsed to that date; the empty string is absent; and
on every input the validator returns (absent or a date) rather than rejecting the
record. -/
theorem parse_date_formats_spec :
    (∀ dA dB mA mB yA yB yC yD : Char, dA ∈ digitChars → dB ∈ digitChars →
      mA ∈ digitChars → mB ∈ digitChars → yA ∈ digitChars → yB ∈ digitChars →
      yC ∈ digitChars → yD ∈ digitChars → ∀ dt : PyDate,
      mkPyDate ((digitsToNat [yA, yB, yC, yD] : Nat) : Int)
        ((digitsToNat [mA, mB] : Nat) : Int)
        ((digitsToNat [dA, dB] : Nat) : Int) = some dt →
      parse_date [dA, dB, '-', mA, mB, '-', yA, yB, yC, yD] = some dt)
    ∧ (∀ dA dB mA mB yA yB yC yD : Char, dA ∈ digitChars → dB ∈ digitChars →
      mA ∈ digitChars → mB ∈ digitChars → yA ∈ digitChars → yB ∈ digitChars →
      yC ∈ digitChars → yD ∈ digitChars → ∀ dt : PyDate,
      mkPyDate ((digitsToNat [yA, yB, yC, yD] : Nat) : Int)
        ((digitsToNat [mA, mB] : Nat) : Int)
        ((digitsToNat [dA, dB] : Nat) : Int) = some dt →
      parse_date [yA, yB, yC, yD, '-', mA, mB, '-', dA, dB] = some dt)
    ∧ (∀ dA dB mA mB yA yB yC yD : Char, dA ∈ digitChars → dB ∈ digitChars →
      mA ∈ digitChars → mB ∈ digitChars → yA ∈ digitChars → yB ∈ digitChars →
      yC ∈ digitChars → yD ∈ digitChars → ∀ dt : PyDate,
      mkPyDate ((digitsToNat [yA, yB, yC, yD] : Nat) : Int)
        ((digitsToNat [mA, mB] : Nat) : Int)
        ((digitsToNat [dA, dB] : Nat) : Int) = some dt →
      parse_date [dA, dB, '.', mA, mB, '.', yA, yB, yC, yD] = some dt)
    ∧ parse_date [] = none
    ∧ (∀ v : List Char, parse_date v = none ∨ ∃ dt, parse_date v = some dt) := by
  refine ⟨?_, ?_, ?_, rfl, ?_⟩
  · intro dA dB mA mB yA yB yC yD hdA hdB hmA hmB hyA hyB hyC hyD dt hmk
    exact parse_date_ddmmyyyy dA dB mA mB yA yB yC yD hdA hdB hmA hmB hyA hyB hyC
      hyD dt hmk
  · intro dA dB mA mB yA yB yC yD hdA hdB hmA hmB hyA hyB hyC hyD dt hmk
    exact parse_date_yyyymmdd dA dB mA mB yA yB yC yD hdA hdB hmA hmB hyA hyB hyC
      hyD dt hmk
  · intro dA dB mA mB yA yB yC yD hdA hdB hmA hmB hyA hyB hyC hyD dt hmk
    exact parse_date_dots dA dB mA mB yA yB yC yD hdA hdB hmA hmB hyA hyB hyC hyD
      dt hmk
  · intro v
    cases h : parse_date v with
    | none => exact Or.inl rfl
    | some dt => exact Or.inr ⟨dt, rfl⟩

/-- Witness for `parse_date_formats_spec`: the BFS-format string `01-02-2020` parses to
the first of February 2020. -/
theorem parse_date_formats_witness :
    parse_date ['0', '1', '-', '0', '2', '-', '2', '0', '2', '0'] =
      some (PyDate.mk 2020 2 1) :=
  parse_date_formats_spec.1 '0' '1' '0' '2' '2' '0' '2' '0' (by decide) (by decide)
    (by decide) (by decide) (by decide) (by decide) (by decide) (by decide)
    (PyDate.mk 2020 2 1) (by decide)

end OpenMun
